import Mathlib

/-!
Shallow embedding of the SUHS-MRV synthetic dataset generator
(`src/physics.py` and `src/generator.py`) over exact rational arithmetic.

Python floats are modelled as `ℚ`; the NaN sentinel used for undefined
cycle efficiency is modelled as `Option ℚ` (`none` = NaN); the shared
pseudo-random generator is modelled as an oracle: every stochastic draw
of the weekly loop is an input value (one `WeekDraws` record per week),
and properties of the samplers' supports (e.g. `rng.uniform(0.1, 0.6)`
lies in `[0.1, 0.6]`) appear as explicit hypotheses where needed.
-/

namespace SUHS

/-- One entry of `thermodynamics.compressibility_Z.segments` in the
configuration: a pressure band `[pressure_min_mpa, pressure_max_mpa)`
with its compressibility factor `Z`. -/
structure Seg where
  pressure_min_mpa : ℚ
  pressure_max_mpa : ℚ
  Z : ℚ
deriving DecidableEq

/-- The `ThermoConfig` view from `physics.py`: gas constant, molar mass and the
piecewise compressibility table. -/
structure ThermoConfig where
  gas_constant_R_J_per_molK : ℚ
  molar_mass_H2_kg_per_mol : ℚ
  compressibility_segments : List Seg
deriving DecidableEq

/-- The linear scan of `get_compressibility_z`: first segment whose band
contains the pressure. -/
def zLookup : List Seg → ℚ → Option ℚ
  | [], _ => none
  | s :: rest, p =>
      if s.pressure_min_mpa ≤ p ∧ p < s.pressure_max_mpa then some s.Z
      else zLookup rest p

/-- The fallback value `segments[-1]["Z"]` of `get_compressibility_z`.
For the empty table (where Python raises `IndexError`) we return 0;
theorems assume a non-empty table. -/
def lastZ (segs : List Seg) : ℚ :=
  match segs.getLast? with
  | some s => s.Z
  | none => 0

/-- Embedding of `get_compressibility_z` (physics.py:154-165): piecewise-constant Z,
falling back to the last segment's Z when no band matches. -/
def get_compressibility_z (th : ThermoConfig) (pressure_mpa : ℚ) : ℚ :=
  match zLookup th.compressibility_segments pressure_mpa with
  | some z => z
  | none => lastZ th.compressibility_segments

/-- Embedding of `compute_temperature_c` (physics.py:168-190): geothermal gradient plus
a noise term.  The noise value is the oracle-supplied draw (0 when the
configured distribution is not `"normal"`). -/
def compute_temperature_c (depth_m base_temperature_c gradient_c_per_km noise : ℚ) : ℚ :=
  base_temperature_c + gradient_c_per_km * (depth_m / 1000) + noise

/-- Embedding of `mass_from_pvt` (physics.py:193-228): mass from the real-gas relation,
returning 0 for non-positive volume and flooring the result at 0. -/
def mass_from_pvt (pressure_mpa temperature_c volume_m3 : ℚ) (th : ThermoConfig) : ℚ :=
  if volume_m3 ≤ 0 then 0
  else
    let pressure_pa := pressure_mpa * 1e6
    let temperature_k := temperature_c + 273.15
    let Z := get_compressibility_z th pressure_mpa
    let n_moles := pressure_pa * volume_m3 / (Z * th.gas_constant_R_J_per_molK * temperature_k)
    max (n_moles * th.molar_mass_H2_kg_per_mol) 0

/-- One iteration of the fixed-point loop of `pressure_from_mass`
(physics.py:254-257): recompute Z at the current pressure estimate (in
MPa) and update `pressure_pa = Z * n * R * T / max(volume, 1e-9)`. -/
def pfmUpdate (th : ThermoConfig) (n_moles temperature_k volume_m3 p_pa : ℚ) : ℚ :=
  get_compressibility_z th (p_pa / 1e6) * n_moles * th.gas_constant_R_J_per_molK
    * temperature_k / max volume_m3 1e-9

/-- Embedding of `pressure_from_mass` (physics.py:231-260): invert the real-gas
relation by exactly 5 fixed-point iterations (`for _ in range(5)`,
written out explicitly) seeded at 1e7 Pa (10 MPa); returns 0 for
non-positive volume or mass; final result floored at 0. -/
def pressure_from_mass (mass_kg temperature_c volume_m3 : ℚ) (th : ThermoConfig) : ℚ :=
  if volume_m3 ≤ 0 ∨ mass_kg ≤ 0 then 0
  else
    let temperature_k := temperature_c + 273.15
    let n_moles := mass_kg / th.molar_mass_H2_kg_per_mol
    let f := pfmUpdate th n_moles temperature_k volume_m3
    let p5 := f (f (f (f (f 1e7))))
    max (p5 / 1e6) 0

/-- The iteration exactly as claim C3 words it: each iteration updates the
pressure to `Z·n·R·T / volume` (dividing by the volume itself, with no
clamping of the divisor).  Second definition for the refinement
comparison of claim C3; the source function is `pressure_from_mass`. -/
def pfmUpdateClaimed (th : ThermoConfig) (n_moles temperature_k volume_m3 p_pa : ℚ) : ℚ :=
  get_compressibility_z th (p_pa / 1e6) * n_moles * th.gas_constant_R_J_per_molK
    * temperature_k / volume_m3

/-- The function `pressure_from_mass` as claim C3 describes it: guard for non-positive
volume or mass, then 5 iterations of `pfmUpdateClaimed` seeded at 10 MPa. -/
def pressure_from_mass_as_claimed (mass_kg temperature_c volume_m3 : ℚ) (th : ThermoConfig) : ℚ :=
  if volume_m3 ≤ 0 ∨ mass_kg ≤ 0 then 0
  else
    let temperature_k := temperature_c + 273.15
    let n_moles := mass_kg / th.molar_mass_H2_kg_per_mol
    let f := pfmUpdateClaimed th n_moles temperature_k volume_m3
    let p5 := f (f (f (f (f 1e7))))
    max (p5 / 1e6) 0

/-- Embedding of `compute_cycle_losses_kg` (physics.py:311-320). -/
def compute_cycle_losses_kg (working_gas_kg loss_fraction : ℚ) : ℚ :=
  if working_gas_kg ≤ 0 ∨ loss_fraction ≤ 0 then 0
  else max (working_gas_kg * loss_fraction) 0

/-- Embedding of `sample_inlet_purity_pct` (physics.py:323-331) applied to the raw
normal draw: clip to `[inlet_min, inlet_max]`. -/
def sample_inlet_purity_pct (inlet_min inlet_max raw : ℚ) : ℚ :=
  min inlet_max (max inlet_min raw)

/-- Embedding of `update_purity_out_pct` (physics.py:334-355) applied to the raw noise
draw: outlet = inlet + noise, clipped in sequence to `[0, 100]` and then
to `[inlet_min, inlet_max]`. -/
def update_purity_out_pct (inlet_min inlet_max purity_in_pct noise : ℚ) : ℚ :=
  min inlet_max (max inlet_min (min 100 (max 0 (purity_in_pct + noise))))

/-- Cycle mode, chosen by `rng.choice` with the configured mode-mix
weights (generator.py:374-384, 420). -/
inductive Mode where
  | injection_heavy
  | withdrawal_heavy
  | balanced
deriving DecidableEq, Inhabited

/-- The stochastic draws consumed by one week of
`simulate_facility_timeseries`, as oracle values.  `temp_noise` is the
temperature-noise draw; `mode` the mode choice; `target_frac_raw` the
lognormal cycle-mass-fraction draw; `mix_u` the `uniform(0.1, 0.6)` draw
of the two heavy modes; `eps_u` the `uniform(-0.1, 0.1)` draw of the
balanced mode; `loss_fraction` the `sample_loss_fraction` draw;
`purity_in_raw` the raw inlet-purity normal draw; `purity_out_noise` the
outlet-noise draw; `pressure_noise` the pressure-noise draw. -/
structure WeekDraws where
  temp_noise : ℚ
  mode : Mode
  target_frac_raw : ℚ
  mix_u : ℚ
  eps_u : ℚ
  loss_fraction : ℚ
  purity_in_raw : ℚ
  purity_out_noise : ℚ
  pressure_noise : ℚ
deriving DecidableEq, Inhabited

/-- The per-facility constants read or computed before the weekly loop of
`simulate_facility_timeseries` (generator.py:327-390):
`working_capacity_kg` and `cushion_gas_kg` from
`_compute_facility_capacity_kg`, the sampled static leak (already divided
by 52), the facility geometry and pressure bounds, the cycling-config
fractions, and the purity-config bounds. -/
structure FacilityParams where
  working_capacity_kg : ℚ
  cushion_gas_kg : ℚ
  static_leak_per_week : ℚ
  volume_m3 : ℚ
  depth_m : ℚ
  base_temperature_c : ℚ
  gradient_c_per_km : ℚ
  pressure_min_mpa : ℚ
  pressure_max_mpa : ℚ
  pressure_margin_mpa : ℚ
  cap_min_frac : ℚ
  cap_max_frac : ℚ
  max_delta_frac : ℚ
  inlet_min : ℚ
  inlet_max : ℚ
  inlet_mean : ℚ
  thermo : ThermoConfig
deriving DecidableEq

/-- The mutable loop state of `simulate_facility_timeseries`
(generator.py:349, 389-390): working gas, last applied cycle fraction,
running cycle counter. -/
structure SimState where
  working_gas_kg : ℚ
  last_cycle_fraction : ℚ
  cycle_index : ℕ
deriving DecidableEq

/-- One row of the weekly time-series (generator.py:538-555).  The
timestamp is represented by the week index; `cycle_efficiency = none`
models the NaN sentinel. -/
structure WeeklyRecord where
  week : ℕ
  cycle_index : ℕ
  is_cycle_active : Bool
  h2_injected_kg : ℚ
  h2_withdrawn_kg : ℚ
  working_gas_kg : ℚ
  cushion_gas_kg : ℚ
  losses_kg : ℚ
  pressure_mpa : ℚ
  temperature_c : ℚ
  purity_in_pct : ℚ
  purity_out_pct : ℚ
  cycle_efficiency : Option ℚ
deriving DecidableEq, Inhabited

/-- One row of the cycle summary (generator.py:493-506).  `cycle_start`
is represented by the week index; `avg_pressure_mpa = none` models the
NaN placeholder that the aggregation pass fills in later. -/
structure CycleRecord where
  cycle_index : ℕ
  week : ℕ
  total_injected_kg : ℚ
  total_withdrawn_kg : ℚ
  total_losses_kg : ℚ
  avg_pressure_mpa : Option ℚ
  avg_temperature_c : ℚ
  cycle_efficiency : Option ℚ
deriving DecidableEq, Inhabited

/-- The mode split of generator.py:434-444: injected and withdrawn mass
from the target mass.  `mix_u` is the `uniform(0.1, 0.6)` draw of the two
heavy modes; `eps_u` the `uniform(-0.1, 0.1)` draw of the balanced
mode. -/
def mode_split (target_mass mix_u eps_u : ℚ) : Mode → ℚ × ℚ
  | .injection_heavy => (target_mass, target_mass * mix_u)
  | .withdrawal_heavy => (target_mass * mix_u, target_mass)
  | .balanced =>
      (max (target_mass + eps_u * target_mass) 0,
       max (target_mass - eps_u * target_mass) 0)

/-- The cycle-mass-fraction ramp (generator.py:423-430): clip the raw
lognormal target to `[cap_min, cap_max]`, cap its distance from the last
applied fraction at `max_delta`, and re-clip to `[cap_min, cap_max]`. -/
def apply_ramp (cap_min cap_max max_delta last target_raw : ℚ) : ℚ :=
  let target_frac := max cap_min (min target_raw cap_max)
  let delta := max (-max_delta) (min (target_frac - last) max_delta)
  let cycle_frac := last + delta
  max cap_min (min cycle_frac cap_max)

/-- The post-update clamping of generator.py:456-469, applied to
`(injected, withdrawn, working_gas)` after the net inventory update: if
working gas is negative, reduce withdrawn by `min(deficit, withdrawn)`
and set working gas to 0; then, if working gas exceeds capacity, reduce
injected by `min(excess, injected)` and set working gas to capacity. -/
def clampInventory (capacity inj wd w : ℚ) : ℚ × ℚ × ℚ :=
  let s1 : ℚ × ℚ × ℚ := if w < 0 then (inj, wd - min (-w) wd, 0) else (inj, wd, w)
  if s1.2.2 > capacity then (s1.1 - min (s1.2.2 - capacity) s1.1, s1.2.1, capacity)
  else s1

/-- One iteration of the weekly loop of `simulate_facility_timeseries`
(generator.py:392-555), as a pure step: given the activity flag, the
week's draws, the week index, the previously appended record
(`records[-1]`, used by the inactive-week purity fill) and the state, it
produces the new state, the appended weekly record and the appended
cycle record (if any).  The mass-balance residual of generator.py:486-491
is computed into a discarded variable in the source and has no effect on
state or records, so it is omitted. -/
def stepWeek (P : FacilityParams) (is_active : Bool) (d : WeekDraws) (week : ℕ)
    (prev : Option WeeklyRecord) (s : SimState) :
    SimState × WeeklyRecord × Option CycleRecord :=
  let temperature_c :=
    compute_temperature_c P.depth_m P.base_temperature_c P.gradient_c_per_km d.temp_noise
  let w0 := max (s.working_gas_kg - P.static_leak_per_week) 0
  let static_losses_kg := P.static_leak_per_week
  match is_active with
  | true =>
    let ci := s.cycle_index + 1
    let cycle_frac :=
      apply_ramp P.cap_min_frac P.cap_max_frac P.max_delta_frac
        s.last_cycle_fraction d.target_frac_raw
    let target_mass := P.working_capacity_kg * cycle_frac
    let iw := mode_split target_mass d.mix_u d.eps_u d.mode
    let dynamic_losses_kg := compute_cycle_losses_kg w0 d.loss_fraction
    let wnet := w0 + iw.1 - iw.2 - dynamic_losses_kg - static_losses_kg
    let c := clampInventory P.working_capacity_kg iw.1 iw.2 wnet
    let total_cycle_losses_kg := dynamic_losses_kg + static_losses_kg
    let cycle_efficiency : Option ℚ := if 0 < c.1 then some (c.2.1 / c.1) else none
    let purity_in_pct := sample_inlet_purity_pct P.inlet_min P.inlet_max d.purity_in_raw
    let purity_out_pct :=
      update_purity_out_pct P.inlet_min P.inlet_max purity_in_pct d.purity_out_noise
    let pressure_raw :=
      pressure_from_mass (c.2.2 + P.cushion_gas_kg) temperature_c P.volume_m3 P.thermo
        + d.pressure_noise
    let pressure_mpa :=
      min (P.pressure_max_mpa + P.pressure_margin_mpa)
        (max (P.pressure_min_mpa - P.pressure_margin_mpa) pressure_raw)
    (⟨c.2.2, cycle_frac, ci⟩,
     { week := week, cycle_index := ci, is_cycle_active := true,
       h2_injected_kg := c.1, h2_withdrawn_kg := c.2.1, working_gas_kg := c.2.2,
       cushion_gas_kg := P.cushion_gas_kg, losses_kg := total_cycle_losses_kg,
       pressure_mpa := pressure_mpa, temperature_c := temperature_c,
       purity_in_pct := purity_in_pct, purity_out_pct := purity_out_pct,
       cycle_efficiency := cycle_efficiency },
     some { cycle_index := ci, week := week, total_injected_kg := c.1,
            total_withdrawn_kg := c.2.1, total_losses_kg := total_cycle_losses_kg,
            avg_pressure_mpa := none, avg_temperature_c := temperature_c,
            cycle_efficiency := cycle_efficiency })
  | false =>
    let total_cycle_losses_kg := static_losses_kg
    let pressure_raw :=
      pressure_from_mass (w0 + P.cushion_gas_kg) temperature_c P.volume_m3 P.thermo
        + d.pressure_noise
    let pressure_mpa :=
      min (P.pressure_max_mpa + P.pressure_margin_mpa)
        (max (P.pressure_min_mpa - P.pressure_margin_mpa) pressure_raw)
    let pin_pout : ℚ × ℚ :=
      match prev with
      | some r => (r.purity_in_pct, r.purity_out_pct)
      | none => (P.inlet_mean, P.inlet_mean)
    (⟨w0, s.last_cycle_fraction, s.cycle_index⟩,
     { week := week, cycle_index := 0, is_cycle_active := false,
       h2_injected_kg := 0, h2_withdrawn_kg := 0, working_gas_kg := w0,
       cushion_gas_kg := P.cushion_gas_kg, losses_kg := total_cycle_losses_kg,
       pressure_mpa := pressure_mpa, temperature_c := temperature_c,
       purity_in_pct := pin_pout.1, purity_out_pct := pin_pout.2,
       cycle_efficiency := none },
     none)

/-- The weekly loop: run `count` weeks starting at week index `start`,
threading the state and the previously appended record (which is what
`records[-1]` denotes at each iteration, since every iteration appends
exactly one weekly record). -/
def runWeeks (P : FacilityParams) (act : ℕ → Bool) (draws : ℕ → WeekDraws) :
    ℕ → ℕ → Option WeeklyRecord → SimState →
    List WeeklyRecord × List CycleRecord × SimState
  | _, 0, _, s => ([], [], s)
  | start, count + 1, prev, s =>
      let step := stepWeek P (act start) (draws start) start prev s
      let tail := runWeeks P act draws (start + 1) count (some step.2.1) step.1
      (step.2.1 :: tail.1, step.2.2.toList ++ tail.2.1, tail.2.2)

/-- Initial state of the weekly loop (generator.py:349, 389-390): start
half full, last fraction 0.1, cycle counter 0. -/
def initState (P : FacilityParams) : SimState :=
  ⟨P.working_capacity_kg * 0.5, 0.1, 0⟩

/-- The whole weekly loop of `simulate_facility_timeseries` over
`n_weeks` weeks, before the aggregation pass: the weekly records and the
raw cycle records (with `avg_pressure_mpa` still unfilled). -/
def simulate (P : FacilityParams) (act : ℕ → Bool) (draws : ℕ → WeekDraws)
    (n_weeks : ℕ) : List WeeklyRecord × List CycleRecord :=
  let out := runWeeks P act draws 0 n_weeks none (initState P)
  (out.1, out.2.1)

/-- The weekly records grouped under one cycle index by the aggregation
pass (generator.py:561-573): the rows with positive, matching
`cycle_index`. -/
def cycleWeeks (ts : List WeeklyRecord) (ci : ℕ) : List WeeklyRecord :=
  ts.filter fun r => decide (0 < r.cycle_index ∧ r.cycle_index = ci)

/-- The aggregation pass (generator.py:560-579): when there are cycle
records and at least one active weekly row, fill each cycle's
`avg_pressure_mpa` with the mean pressure of its weekly rows (`none`,
modelling the NaN of an unmatched left merge, if there are none). -/
def fillAvgPressure (ts : List WeeklyRecord) (cycles : List CycleRecord) :
    List CycleRecord :=
  if cycles.isEmpty then cycles
  else if (ts.filter fun r => decide (0 < r.cycle_index)).isEmpty then cycles
  else
    cycles.map fun c =>
      let ws := cycleWeeks ts c.cycle_index
      { c with avg_pressure_mpa :=
          if ws.isEmpty then none
          else some ((ws.map WeeklyRecord.pressure_mpa).sum / (ws.length : ℚ)) }

/-- Embedding of `simulate_facility_timeseries` (generator.py:309-581): the weekly
loop followed by the aggregation pass over its own records. -/
def simulate_facility_timeseries (P : FacilityParams) (act : ℕ → Bool)
    (draws : ℕ → WeekDraws) (n_weeks : ℕ) :
    List WeeklyRecord × List CycleRecord :=
  let out := simulate P act draws n_weeks
  (out.1, fillAvgPressure out.1 out.2)

/-- One year's entry of `assign_active_cycles_per_year`
(generator.py:218-248): the calendar year, the week indices grouped into
it, the drawn cycle count (`rng.integers(min_c, max_c + 1)`), and the
drawn active indices (`rng.choice(indices, size=n_cycles,
replace=False)`, sorted).  The draws are oracle values; their contracts
(`chosen ⊆ indices`, distinct, of length `min(drawn_count, |indices|)`)
appear as hypotheses. -/
structure YearSchedule where
  year : ℤ
  indices : List ℕ
  drawn_count : ℕ
  chosen : List ℕ
deriving DecidableEq

/-- The per-week activity test of generator.py:393-395: look up the
week's year in the schedule and test membership of the week index in that
year's active indices (inactive when the year is absent, matching the
empty-array default). -/
def isActiveWeek (sched : List YearSchedule) (yearOf : ℕ → ℤ) (idx : ℕ) : Bool :=
  match sched.find? (fun ys => ys.year == yearOf idx) with
  | some ys => decide (idx ∈ ys.chosen)
  | none => false

/-- The facility loop of `generate_uhs_dataset` (generator.py:619-641):
the activation schedule is built once, then every facility is simulated
against that same schedule, with its own parameters and its own slice of
the draw stream. -/
def generate_uhs_dataset (facilities : List FacilityParams)
    (sched : List YearSchedule) (yearOf : ℕ → ℤ)
    (drawsFor : ℕ → ℕ → WeekDraws) (n_weeks : ℕ) :
    List (List WeeklyRecord × List CycleRecord) :=
  facilities.enum.map fun p =>
    simulate_facility_timeseries p.2 (isActiveWeek sched yearOf) (drawsFor p.1) n_weeks

/-! ### Helper lemmas about the step function -/

lemma clampInventory_working_bounds (capacity inj wd w : ℚ) (hcap : 0 ≤ capacity) :
    0 ≤ (clampInventory capacity inj wd w).2.2
      ∧ (clampInventory capacity inj wd w).2.2 ≤ capacity := by
  unfold clampInventory
  by_cases h1 : w < 0
  · have h2 : ¬ ((0 : ℚ) > capacity) := not_lt.mpr hcap
    simp [h1, h2]
    exact hcap
  · rw [not_lt] at h1
    by_cases h2 : w > capacity
    · simp [not_lt.mpr h1, h2]
      exact hcap
    · simp only [not_lt.mpr h1, if_false]
      simp [h2]
      exact ⟨h1, not_lt.mp h2⟩

lemma clampInventory_inj_nonneg (capacity inj wd w : ℚ) (hinj : 0 ≤ inj) :
    0 ≤ (clampInventory capacity inj wd w).1 := by
  unfold clampInventory
  by_cases h1 : w < 0
  · by_cases h2 : (0 : ℚ) > capacity
    · simp only [if_pos h1]
      simp [h2]
    · simp only [if_pos h1]
      simp [h2]
      exact hinj
  · by_cases h2 : w > capacity
    · simp only [if_neg h1]
      simp [h2]
    · simp only [if_neg h1]
      simp [h2]
      exact hinj

lemma mode_split_fst_nonneg (target_mass mix_u eps_u : ℚ) (m : Mode)
    (ht : 0 ≤ target_mass) (hu : 0 ≤ mix_u) :
    0 ≤ (mode_split target_mass mix_u eps_u m).1 := by
  cases m
  · exact ht
  · exact mul_nonneg ht hu
  · exact le_max_right _ _

lemma apply_ramp_mem_left (cap_min cap_max max_delta last target : ℚ) :
    cap_min ≤ apply_ramp cap_min cap_max max_delta last target :=
  le_max_left _ _

/-- The new `working_gas_kg` state, the recorded `working_gas_kg` and the
bounds `0 ≤ working ≤ capacity` are preserved by one step (for
non-negative capacity and static leak). -/
lemma stepWeek_working (P : FacilityParams) (b : Bool) (d : WeekDraws) (week : ℕ)
    (prev : Option WeeklyRecord) (s : SimState)
    (hcap : 0 ≤ P.working_capacity_kg) (hleak : 0 ≤ P.static_leak_per_week)
    (h0 : 0 ≤ s.working_gas_kg) (h1 : s.working_gas_kg ≤ P.working_capacity_kg) :
    0 ≤ (stepWeek P b d week prev s).1.working_gas_kg
      ∧ (stepWeek P b d week prev s).1.working_gas_kg ≤ P.working_capacity_kg := by
  cases b
  · have e : (stepWeek P false d week prev s).1.working_gas_kg
        = max (s.working_gas_kg - P.static_leak_per_week) 0 := rfl
    rw [e]
    constructor
    · exact le_max_right _ _
    · apply max_le _ hcap
      linarith
  · obtain ⟨a, v, w, hw⟩ :
        ∃ a v w, (stepWeek P true d week prev s).1.working_gas_kg
          = (clampInventory P.working_capacity_kg a v w).2.2 := ⟨_, _, _, rfl⟩
    rw [hw]
    exact clampInventory_working_bounds _ _ _ _ hcap

lemma stepWeek_rec_working (P : FacilityParams) (b : Bool) (d : WeekDraws) (week : ℕ)
    (prev : Option WeeklyRecord) (s : SimState) :
    (stepWeek P b d week prev s).2.1.working_gas_kg
      = (stepWeek P b d week prev s).1.working_gas_kg := by
  cases b <;> rfl

lemma stepWeek_rec_cushion (P : FacilityParams) (b : Bool) (d : WeekDraws) (week : ℕ)
    (prev : Option WeeklyRecord) (s : SimState) :
    (stepWeek P b d week prev s).2.1.cushion_gas_kg = P.cushion_gas_kg := by
  cases b <;> rfl

lemma stepWeek_rec_active (P : FacilityParams) (b : Bool) (d : WeekDraws) (week : ℕ)
    (prev : Option WeeklyRecord) (s : SimState) :
    (stepWeek P b d week prev s).2.1.is_cycle_active = b := by
  cases b <;> rfl

lemma stepWeek_rec_losses_false (P : FacilityParams) (d : WeekDraws) (week : ℕ)
    (prev : Option WeeklyRecord) (s : SimState) :
    (stepWeek P false d week prev s).2.1.losses_kg = P.static_leak_per_week := rfl

lemma stepWeek_rec_losses_true (P : FacilityParams) (d : WeekDraws) (week : ℕ)
    (prev : Option WeeklyRecord) (s : SimState) :
    (stepWeek P true d week prev s).2.1.losses_kg
      = compute_cycle_losses_kg (max (s.working_gas_kg - P.static_leak_per_week) 0)
          d.loss_fraction
        + P.static_leak_per_week := rfl

/-! ### Claim C2: asymmetric clamping order -/

/-- C2.  On an active week, after the net update
`working += injected − withdrawn − dynamic_losses − static_leak`, the
clamping of generator.py:457-469 behaves exactly as claimed: a deficit is
fixed by reducing only `withdrawn` (by `min(deficit, withdrawn)`, working
gas set to 0, injected untouched); an excess is fixed by reducing only
`injected` (by `min(excess, injected)`, working gas set to capacity,
withdrawn untouched); the deficit correction is applied first.  Stated as
a complete characterization of `clampInventory`, the embedding of those
lines, for non-negative capacity. -/
theorem clamping_asymmetric_characterization (capacity inj wd w : ℚ)
    (hcap : 0 ≤ capacity) :
    clampInventory capacity inj wd w =
      if w < 0 then (inj, wd - min (-w) wd, 0)
      else if capacity < w then (inj - min (w - capacity) inj, wd, capacity)
      else (inj, wd, w) := by
  unfold clampInventory
  by_cases h1 : w < 0
  · have h2 : ¬ ((0 : ℚ) > capacity) := not_lt.mpr hcap
    simp [h1, h2]
  · by_cases h3 : w > capacity
    · simp [h1, h3, gt_iff_lt]
    · simp [h1, h3]

/-- Witness for C2: a deficit of 2 against withdrawn 10 reduces withdrawn
to 8 and clamps working gas to 0, leaving injected at 5. -/
theorem clamping_asymmetric_characterization_witness :
    clampInventory 1 5 10 (-2) = (5, 8, 0) := by
  have h := clamping_asymmetric_characterization 1 5 10 (-2) (by norm_num)
  norm_num at h
  exact h

/-! ### Claim C5: cycle ramp constraint -/

/-- C5.  The applied cycle-mass fraction is tracked as
`last_cycle_fraction`.  For an active week starting from a previously
applied fraction (any value in `[cap_min_frac, cap_max_frac]`, which
every applied fraction is), the new applied fraction moves by at most
`max_delta_frac` and stays in `[cap_min_frac, cap_max_frac]`; an inactive
week leaves it unchanged.  Hence for any two consecutive active cycles
the applied fractions differ by at most
`max_relative_change_in_cycle_mass.per_cycle`; the re-clip never forces a
larger jump, so the claim's permitted exception is not even needed. -/
theorem cycle_ramp_constraint (P : FacilityParams) (d : WeekDraws) (week : ℕ)
    (prev : Option WeeklyRecord) (s : SimState)
    (hmin : P.cap_min_frac ≤ s.last_cycle_fraction)
    (hmax : s.last_cycle_fraction ≤ P.cap_max_frac)
    (hdelta : 0 ≤ P.max_delta_frac) :
    |(stepWeek P true d week prev s).1.last_cycle_fraction - s.last_cycle_fraction|
        ≤ P.max_delta_frac
      ∧ P.cap_min_frac ≤ (stepWeek P true d week prev s).1.last_cycle_fraction
      ∧ (stepWeek P true d week prev s).1.last_cycle_fraction ≤ P.cap_max_frac
      ∧ (stepWeek P false d week prev s).1.last_cycle_fraction
          = s.last_cycle_fraction := by
  have e : (stepWeek P true d week prev s).1.last_cycle_fraction
      = apply_ramp P.cap_min_frac P.cap_max_frac P.max_delta_frac
          s.last_cycle_fraction d.target_frac_raw := rfl
  rw [e]
  unfold apply_ramp
  set t := max P.cap_min_frac (min d.target_frac_raw P.cap_max_frac) with ht
  set delta := max (-P.max_delta_frac) (min (t - s.last_cycle_fraction) P.max_delta_frac)
    with hd
  have hd1 : -P.max_delta_frac ≤ delta := le_max_left _ _
  have hd2 : delta ≤ P.max_delta_frac := by
    apply max_le (by linarith)
    exact min_le_right _ _
  set res := max P.cap_min_frac (min (s.last_cycle_fraction + delta) P.cap_max_frac)
    with hr
  have hres1 : P.cap_min_frac ≤ res := le_max_left _ _
  have hres2 : res ≤ P.cap_max_frac := max_le (le_trans hmin hmax) (min_le_right _ _)
  have hresU : res ≤ s.last_cycle_fraction + P.max_delta_frac := by
    apply max_le (by linarith)
    calc min (s.last_cycle_fraction + delta) P.cap_max_frac
        ≤ s.last_cycle_fraction + delta := min_le_left _ _
      _ ≤ s.last_cycle_fraction + P.max_delta_frac := by linarith
  have hresL : s.last_cycle_fraction - P.max_delta_frac ≤ res := by
    have : s.last_cycle_fraction - P.max_delta_frac
        ≤ min (s.last_cycle_fraction + delta) P.cap_max_frac :=
      le_min (by linarith) (by linarith)
    calc s.last_cycle_fraction - P.max_delta_frac
        ≤ min (s.last_cycle_fraction + delta) P.cap_max_frac := this
      _ ≤ res := le_max_right _ _
  refine ⟨abs_le.mpr ⟨by linarith, by linarith⟩, hres1, hres2, rfl⟩

/-- Witness for C5 at a concrete configuration: previous fraction 0.2 in
`[0.1, 0.5]`, delta cap 0.05, a raw target draw of 0.5. -/
theorem cycle_ramp_constraint_witness :
    |(stepWeek ⟨100, 10, 0, 1, 1000, 10, 25, 1, 20, 1, 1/10, 1/2, 1/20, 95, 100, 99,
         ⟨831/100, 2016/1000000, [⟨0, 100, 1⟩]⟩⟩ true
       ⟨0, Mode.balanced, 1/2, 1/3, 0, 0, 99, 0, 0⟩ 0 none ⟨50, 1/5, 3⟩).1.last_cycle_fraction
        - (1/5 : ℚ)| ≤ (1/20 : ℚ) := by
  have h := cycle_ramp_constraint
    ⟨100, 10, 0, 1, 1000, 10, 25, 1, 20, 1, 1/10, 1/2, 1/20, 95, 100, 99,
       ⟨831/100, 2016/1000000, [⟨0, 100, 1⟩]⟩⟩
    ⟨0, Mode.balanced, 1/2, 1/3, 0, 0, 99, 0, 0⟩ 0 none ⟨50, 1/5, 3⟩
    (by norm_num) (by norm_num) (by norm_num)
  exact h.1

/-! ### Claim C10: losses always include the full static leak -/

/-- C10.  Every weekly record's `losses_kg` is the full
`static_leak_per_week` plus (on active weeks) the dynamic losses,
independently of how much gas was actually in storage; in particular, on
an inactive week whose working gas is below the static leak, the
inventory floors at 0 while the recorded losses remain the full leak, so
the recorded losses strictly exceed the mass actually removed. -/
theorem losses_include_full_static_leak (P : FacilityParams) (b : Bool) (d : WeekDraws)
    (week : ℕ) (prev : Option WeeklyRecord) (s : SimState) :
    (stepWeek P b d week prev s).2.1.losses_kg
        = P.static_leak_per_week
          + (if b then
               compute_cycle_losses_kg
                 (max (s.working_gas_kg - P.static_leak_per_week) 0) d.loss_fraction
             else 0)
      ∧ (b = false → 0 ≤ s.working_gas_kg →
          s.working_gas_kg < P.static_leak_per_week →
          (stepWeek P b d week prev s).1.working_gas_kg = 0
            ∧ s.working_gas_kg - (stepWeek P b d week prev s).1.working_gas_kg
                < (stepWeek P b d week prev s).2.1.losses_kg) := by
  cases b
  · refine ⟨by simp [stepWeek_rec_losses_false], ?_⟩
    intro _ h0 hlt
    have e : (stepWeek P false d week prev s).1.working_gas_kg
        = max (s.working_gas_kg - P.static_leak_per_week) 0 := rfl
    have hz : (stepWeek P false d week prev s).1.working_gas_kg = 0 := by
      rw [e]
      exact max_eq_right (by linarith)
    refine ⟨hz, ?_⟩
    rw [hz, stepWeek_rec_losses_false]
    linarith
  · refine ⟨?_, by simp⟩
    rw [stepWeek_rec_losses_true]
    simp [add_comm]

/-! ### Claim C3: the fixed-point iteration of `pressure_from_mass` -/

/-- A minimal thermodynamic configuration for concrete evaluations:
R = 1, M = 1, a single compressibility segment `[0, 1e12) ↦ Z = 1`. -/
def thUnit : ThermoConfig := ⟨1, 1, [⟨0, 1e12, 1⟩]⟩

/-- Counterexample to C3 as stated: at the positive volume `1e-10`
(with positive mass 1 and temperature above absolute zero) the code
divides each iterate by `max(volume, 1e-9) = 1e-9`, not by the volume,
so the result (1000 MPa) differs from the claimed iteration (10000
MPa). -/
theorem pressure_iteration_divisor_counterexample :
    pressure_from_mass 1 (-272.15) (1 / 10 ^ 10) thUnit
        ≠ pressure_from_mass_as_claimed 1 (-272.15) (1 / 10 ^ 10) thUnit
      ∧ (0 : ℚ) < 1 / 10 ^ 10 ∧ (0 : ℚ) < 1 ∧ (-273.15 : ℚ) < -272.15 := by
  refine ⟨?_, by norm_num, by norm_num, by norm_num⟩
  have h1 : pressure_from_mass 1 (-272.15) (1 / 10 ^ 10) thUnit = 1000 := by
    norm_num [pressure_from_mass, pfmUpdate, get_compressibility_z, zLookup, lastZ, thUnit]
  have h2 : pressure_from_mass_as_claimed 1 (-272.15) (1 / 10 ^ 10) thUnit = 10000 := by
    norm_num [pressure_from_mass_as_claimed, pfmUpdateClaimed, get_compressibility_z,
      zLookup, lastZ, thUnit]
  rw [h1, h2]
  norm_num

/-- C3 (amended).  `pressure_from_mass` returns 0 whenever
`volume_m3 ≤ 0` or `mass_kg ≤ 0`; otherwise it performs exactly 5
fixed-point iterations seeded at 10 MPa, each recomputing Z at the
current pressure estimate and updating the pressure to
`Z·n·R·T / max(volume, 1e-9)` — which agrees with the claimed divisor
`volume` exactly on volumes `≥ 1e-9`. -/
theorem pressure_from_mass_five_iterations (mass_kg temperature_c volume_m3 : ℚ)
    (th : ThermoConfig) :
    ((volume_m3 ≤ 0 ∨ mass_kg ≤ 0) →
        pressure_from_mass mass_kg temperature_c volume_m3 th = 0)
      ∧ ((1e-9 : ℚ) ≤ volume_m3 →
          pressure_from_mass mass_kg temperature_c volume_m3 th
            = pressure_from_mass_as_claimed mass_kg temperature_c volume_m3 th) := by
  constructor
  · intro h
    simp [pressure_from_mass, h]
  · intro hV
    have hmax : max volume_m3 (1e-9 : ℚ) = volume_m3 := max_eq_left hV
    simp only [pressure_from_mass, pressure_from_mass_as_claimed, pfmUpdate,
      pfmUpdateClaimed, hmax]

/-- Witness for C3 (amended): both the zero guard and the iteration
agreement, at concrete inputs. -/
theorem pressure_from_mass_five_iterations_witness :
    pressure_from_mass 1 (-272.15) 0 thUnit = 0
      ∧ pressure_from_mass 1 (-272.15) 1 thUnit
          = pressure_from_mass_as_claimed 1 (-272.15) 1 thUnit :=
  ⟨(pressure_from_mass_five_iterations 1 (-272.15) 0 thUnit).1 (Or.inl le_rfl),
   (pressure_from_mass_five_iterations 1 (-272.15) 1 thUnit).2 (by norm_num)⟩

/-- Witness for C10: an inactive week with working gas 1/2 and static
leak 1 floors the inventory at 0 yet records losses of 1 > 1/2. -/
theorem losses_include_full_static_leak_witness :
    (stepWeek ⟨100, 10, 1, 1, 1000, 10, 25, 1, 20, 1, 1/10, 1/2, 1/20, 95, 100, 99,
         ⟨831/100, 2016/1000000, [⟨0, 100, 1⟩]⟩⟩ false
       ⟨0, Mode.balanced, 1/2, 1/3, 0, 0, 99, 0, 0⟩ 0 none ⟨1/2, 1/5, 0⟩).1.working_gas_kg = 0
      ∧ (1/2 : ℚ)
          - (stepWeek ⟨100, 10, 1, 1, 1000, 10, 25, 1, 20, 1, 1/10, 1/2, 1/20, 95, 100, 99,
               ⟨831/100, 2016/1000000, [⟨0, 100, 1⟩]⟩⟩ false
             ⟨0, Mode.balanced, 1/2, 1/3, 0, 0, 99, 0, 0⟩ 0 none ⟨1/2, 1/5, 0⟩).1.working_gas_kg
          < (stepWeek ⟨100, 10, 1, 1, 1000, 10, 25, 1, 20, 1, 1/10, 1/2, 1/20, 95, 100, 99,
               ⟨831/100, 2016/1000000, [⟨0, 100, 1⟩]⟩⟩ false
             ⟨0, Mode.balanced, 1/2, 1/3, 0, 0, 99, 0, 0⟩ 0 none ⟨1/2, 1/5, 0⟩).2.1.losses_kg := by
  have h := (losses_include_full_static_leak
    ⟨100, 10, 1, 1, 1000, 10, 25, 1, 20, 1, 1/10, 1/2, 1/20, 95, 100, 99,
       ⟨831/100, 2016/1000000, [⟨0, 100, 1⟩]⟩⟩ false
    ⟨0, Mode.balanced, 1/2, 1/3, 0, 0, 99, 0, 0⟩ 0 none ⟨1/2, 1/5, 0⟩).2
    rfl (by norm_num) (by norm_num)
  exact h

/-! ### Trace lemmas for the weekly loop -/

lemma runWeeks_fst_length (P : FacilityParams) (act : ℕ → Bool) (draws : ℕ → WeekDraws) :
    ∀ (count start : ℕ) (prev : Option WeeklyRecord) (s : SimState),
      (runWeeks P act draws start count prev s).1.length = count := by
  intro count
  induction count with
  | zero => intro start prev s; rfl
  | succ k ih =>
      intro start prev s
      simp only [runWeeks, List.length_cons]
      rw [ih]

lemma runWeeks_cushion (P : FacilityParams) (act : ℕ → Bool) (draws : ℕ → WeekDraws) :
    ∀ (count start : ℕ) (prev : Option WeeklyRecord) (s : SimState),
      ∀ r ∈ (runWeeks P act draws start count prev s).1,
        r.cushion_gas_kg = P.cushion_gas_kg := by
  intro count
  induction count with
  | zero => intro start prev s r hr; simp [runWeeks] at hr
  | succ k ih =>
      intro start prev s r hr
      simp only [runWeeks, List.mem_cons] at hr
      rcases hr with hr | hr
      · rw [hr]
        exact stepWeek_rec_cushion P (act start) (draws start) start prev s
      · exact ih (start + 1) _ _ r hr

lemma runWeeks_working (P : FacilityParams) (act : ℕ → Bool) (draws : ℕ → WeekDraws)
    (hcap : 0 ≤ P.working_capacity_kg) (hleak : 0 ≤ P.static_leak_per_week) :
    ∀ (count start : ℕ) (prev : Option WeeklyRecord) (s : SimState),
      0 ≤ s.working_gas_kg → s.working_gas_kg ≤ P.working_capacity_kg →
      ∀ r ∈ (runWeeks P act draws start count prev s).1,
        0 ≤ r.working_gas_kg ∧ r.working_gas_kg ≤ P.working_capacity_kg := by
  intro count
  induction count with
  | zero => intro start prev s _ _ r hr; simp [runWeeks] at hr
  | succ k ih =>
      intro start prev s h0 h1 r hr
      have hstep := stepWeek_working P (act start) (draws start) start prev s
        hcap hleak h0 h1
      simp only [runWeeks, List.mem_cons] at hr
      rcases hr with hr | hr
      · rw [hr, stepWeek_rec_working]
        exact hstep
      · exact ih (start + 1) _ _ hstep.1 hstep.2 r hr

lemma runWeeks_active_at (P : FacilityParams) (act : ℕ → Bool) (draws : ℕ → WeekDraws) :
    ∀ (count start : ℕ) (prev : Option WeeklyRecord) (s : SimState) (j : ℕ),
      j < count →
      ((runWeeks P act draws start count prev s).1.getD j default).is_cycle_active
        = act (start + j) := by
  intro count
  induction count with
  | zero => intro start prev s j hj; omega
  | succ k ih =>
      intro start prev s j hj
      match j with
      | 0 =>
          simp only [runWeeks, List.getD_cons_zero, Nat.add_zero]
          exact stepWeek_rec_active P (act start) (draws start) start prev s
      | j + 1 =>
          simp only [runWeeks, List.getD_cons_succ]
          rw [ih (start + 1) _ _ j (by omega)]
          congr 1
          omega

lemma stepWeek_true_inj_nonneg (P : FacilityParams) (d : WeekDraws) (week : ℕ)
    (prev : Option WeeklyRecord) (s : SimState)
    (hcap : 0 ≤ P.working_capacity_kg) (hcm : 0 ≤ P.cap_min_frac) (hmix : 0 ≤ d.mix_u) :
    0 ≤ (stepWeek P true d week prev s).2.1.h2_injected_kg := by
  obtain ⟨v, w, hw⟩ :
      ∃ v w, (stepWeek P true d week prev s).2.1.h2_injected_kg
        = (clampInventory P.working_capacity_kg
            (mode_split
              (P.working_capacity_kg *
                apply_ramp P.cap_min_frac P.cap_max_frac P.max_delta_frac
                  s.last_cycle_fraction d.target_frac_raw)
              d.mix_u d.eps_u d.mode).1 v w).1 := ⟨_, _, rfl⟩
  rw [hw]
  apply clampInventory_inj_nonneg
  apply mode_split_fst_nonneg _ _ _ _ _ hmix
  exact mul_nonneg hcap (le_trans hcm (apply_ramp_mem_left _ _ _ _ _))

/-- The efficiency field of an active weekly record is literally
`if 0 < injected then some (withdrawn / injected) else none` over its own
(post-clamping) injected and withdrawn fields. -/
lemma stepWeek_true_eff_eq (P : FacilityParams) (d : WeekDraws) (week : ℕ)
    (prev : Option WeeklyRecord) (s : SimState) :
    (stepWeek P true d week prev s).2.1.cycle_efficiency
      = (if 0 < (stepWeek P true d week prev s).2.1.h2_injected_kg
         then some ((stepWeek P true d week prev s).2.1.h2_withdrawn_kg
           / (stepWeek P true d week prev s).2.1.h2_injected_kg)
         else none) := rfl

/-- The cycle record appended by an active step carries the same
injected, withdrawn and efficiency values as the weekly record. -/
lemma stepWeek_true_cyc_fields (P : FacilityParams) (d : WeekDraws) (week : ℕ)
    (prev : Option WeeklyRecord) (s : SimState) :
    ((stepWeek P true d week prev s).2.2).map
        (fun c => (c.total_injected_kg, c.total_withdrawn_kg, c.cycle_efficiency))
      = some ((stepWeek P true d week prev s).2.1.h2_injected_kg,
          (stepWeek P true d week prev s).2.1.h2_withdrawn_kg,
          (stepWeek P true d week prev s).2.1.cycle_efficiency) := rfl

lemma stepWeek_false_cyc (P : FacilityParams) (d : WeekDraws) (week : ℕ)
    (prev : Option WeeklyRecord) (s : SimState) :
    (stepWeek P false d week prev s).2.2 = none := rfl

/-- The NaN-iff-zero property of an efficiency value built by the code's
`if injected > 0` test, given non-negative injected mass. -/
lemma eff_characterization (inj wd : ℚ) (h : 0 ≤ inj) :
    ((if 0 < inj then some (wd / inj) else none) = none ↔ inj = 0)
      ∧ (inj ≠ 0 → (if 0 < inj then some (wd / inj) else none) = some (wd / inj)) := by
  by_cases hp : 0 < inj
  · simp [hp]
    linarith
  · have hz : inj = 0 := le_antisymm (not_lt.mp hp) h
    simp [hp, hz]

lemma runWeeks_efficiency (P : FacilityParams) (act : ℕ → Bool) (draws : ℕ → WeekDraws)
    (hcap : 0 ≤ P.working_capacity_kg) (hcm : 0 ≤ P.cap_min_frac)
    (hmix : ∀ i, 0 ≤ (draws i).mix_u) :
    ∀ (count start : ℕ) (prev : Option WeeklyRecord) (s : SimState),
      (∀ r ∈ (runWeeks P act draws start count prev s).1, r.is_cycle_active = true →
          (r.cycle_efficiency = none ↔ r.h2_injected_kg = 0)
          ∧ (r.h2_injected_kg ≠ 0 →
              r.cycle_efficiency = some (r.h2_withdrawn_kg / r.h2_injected_kg)))
      ∧ (∀ c ∈ (runWeeks P act draws start count prev s).2.1,
          (c.cycle_efficiency = none ↔ c.total_injected_kg = 0)
          ∧ (c.total_injected_kg ≠ 0 →
              c.cycle_efficiency = some (c.total_withdrawn_kg / c.total_injected_kg))) := by
  intro count
  induction count with
  | zero =>
      intro start prev s
      constructor
      · intro r hr; simp [runWeeks] at hr
      · intro c hc; simp [runWeeks] at hc
  | succ k ih =>
      intro start prev s
      constructor
      · intro r hr hact
        simp only [runWeeks, List.mem_cons] at hr
        rcases hr with hr | hr
        · subst hr
          rw [stepWeek_rec_active] at hact
          rw [hact]
          have hinj := stepWeek_true_inj_nonneg P (draws start) start prev s hcap hcm
            (hmix start)
          rw [stepWeek_true_eff_eq]
          exact eff_characterization _ _ hinj
        · exact (ih (start + 1) _ _).1 r hr hact
      · intro c hc
        simp only [runWeeks, List.mem_append] at hc
        rcases hc with hc | hc
        · cases hact : act start
          · rw [hact, stepWeek_false_cyc] at hc
            exact absurd hc (List.not_mem_nil c)
          · rw [hact] at hc
            obtain ⟨cr, hcr⟩ :
                ∃ cr, (stepWeek P true (draws start) start prev s).2.2 = some cr :=
              ⟨_, rfl⟩
            rw [hcr] at hc
            simp only [Option.toList_some, List.mem_singleton] at hc
            subst hc
            have hfields := stepWeek_true_cyc_fields P (draws start) start prev s
            rw [hcr] at hfields
            simp only [Option.map_some', Option.some.injEq, Prod.mk.injEq] at hfields
            obtain ⟨h1, h2, h3⟩ := hfields
            rw [h1, h2, h3, stepWeek_true_eff_eq]
            exact eff_characterization _ _
              (stepWeek_true_inj_nonneg P (draws start) start prev s hcap hcm (hmix start))
        · exact (ih (start + 1) _ _).2 c hc

/-! ### Claim C7: cycle efficiency is NaN exactly when injected is 0 -/

/-- C7.  In every cycle record and every active weekly record, the
recorded efficiency is the NaN sentinel (`none`) exactly when that
cycle's post-clamping injected mass is 0, and equals
`withdrawn / injected` otherwise.  Hypotheses express that the capacity
and the configured minimum capacity fraction are non-negative and that
the `uniform(0.1, 0.6)` mix draws are non-negative (properties of the
sampler's support). -/
theorem cycle_efficiency_nan_iff_zero_injected (P : FacilityParams) (act : ℕ → Bool)
    (draws : ℕ → WeekDraws) (n_weeks : ℕ)
    (hcap : 0 ≤ P.working_capacity_kg) (hcm : 0 ≤ P.cap_min_frac)
    (hmix : ∀ i, 0 ≤ (draws i).mix_u) :
    (∀ r ∈ (simulate P act draws n_weeks).1, r.is_cycle_active = true →
        (r.cycle_efficiency = none ↔ r.h2_injected_kg = 0)
        ∧ (r.h2_injected_kg ≠ 0 →
            r.cycle_efficiency = some (r.h2_withdrawn_kg / r.h2_injected_kg)))
      ∧ (∀ c ∈ (simulate P act draws n_weeks).2,
          (c.cycle_efficiency = none ↔ c.total_injected_kg = 0)
          ∧ (c.total_injected_kg ≠ 0 →
              c.cycle_efficiency = some (c.total_withdrawn_kg / c.total_injected_kg))) :=
  runWeeks_efficiency P act draws hcap hcm hmix n_weeks 0 none (initState P)

/-- Witness for C7: the one-active-week run of a small facility. -/
theorem cycle_efficiency_nan_iff_zero_injected_witness :
    (∀ r ∈ (simulate
        ⟨100, 10, 1, 1, 1000, 10, 25, 1, 20, 1, 1/10, 1/2, 1/20, 95, 100, 99,
           ⟨831/100, 2016/1000000, [⟨0, 100, 1⟩]⟩⟩
        (fun i => i == 0)
        (fun _ => ⟨0, Mode.injection_heavy, 1/2, 1/3, 0, 0, 99, 0, 0⟩) 1).1,
      r.is_cycle_active = true →
        (r.cycle_efficiency = none ↔ r.h2_injected_kg = 0)
        ∧ (r.h2_injected_kg ≠ 0 →
            r.cycle_efficiency = some (r.h2_withdrawn_kg / r.h2_injected_kg)))
      ∧ (∀ c ∈ (simulate
          ⟨100, 10, 1, 1, 1000, 10, 25, 1, 20, 1, 1/10, 1/2, 1/20, 95, 100, 99,
             ⟨831/100, 2016/1000000, [⟨0, 100, 1⟩]⟩⟩
          (fun i => i == 0)
          (fun _ => ⟨0, Mode.injection_heavy, 1/2, 1/3, 0, 0, 99, 0, 0⟩) 1).2,
        (c.cycle_efficiency = none ↔ c.total_injected_kg = 0)
        ∧ (c.total_injected_kg ≠ 0 →
            c.cycle_efficiency = some (c.total_withdrawn_kg / c.total_injected_kg))) :=
  cycle_efficiency_nan_iff_zero_injected
    ⟨100, 10, 1, 1, 1000, 10, 25, 1, 20, 1, 1/10, 1/2, 1/20, 95, 100, 99,
       ⟨831/100, 2016/1000000, [⟨0, 100, 1⟩]⟩⟩
    (fun i => i == 0)
    (fun _ => ⟨0, Mode.injection_heavy, 1/2, 1/3, 0, 0, 99, 0, 0⟩) 1
    (by norm_num) (by norm_num) (fun _ => by norm_num)

/-! ### Claim C8: cushion gas is constant across all weekly records -/

/-- C8.  `cushion_gas_kg` is computed once before the weekly loop (it is
a `FacilityParams` constant in this embedding, produced by
`_compute_facility_capacity_kg`) and every weekly record of the facility
carries exactly that value; no weekly step modifies it. -/
theorem cushion_gas_constant (P : FacilityParams) (act : ℕ → Bool)
    (draws : ℕ → WeekDraws) (n_weeks : ℕ) :
    ∀ r ∈ (simulate P act draws n_weeks).1, r.cushion_gas_kg = P.cushion_gas_kg :=
  fun r hr => runWeeks_cushion P act draws n_weeks 0 none (initState P) r hr

/-- Witness for C8: the first record of a concrete one-week run carries
the facility's cushion gas mass 10. -/
theorem cushion_gas_constant_witness :
    ((simulate
        ⟨100, 10, 1, 1, 1000, 10, 25, 1, 20, 1, 1/10, 1/2, 1/20, 95, 100, 99,
           ⟨831/100, 2016/1000000, [⟨0, 100, 1⟩]⟩⟩
        (fun i => i == 0)
        (fun _ => ⟨0, Mode.balanced, 1/2, 1/3, 0, 0, 99, 0, 0⟩) 1).1.getD 0
      default).cushion_gas_kg = (10 : ℚ) := by
  have hlen : (simulate
      ⟨100, 10, 1, 1, 1000, 10, 25, 1, 20, 1, 1/10, 1/2, 1/20, 95, 100, 99,
         ⟨831/100, 2016/1000000, [⟨0, 100, 1⟩]⟩⟩
      (fun i => i == 0)
      (fun _ => ⟨0, Mode.balanced, 1/2, 1/3, 0, 0, 99, 0, 0⟩) 1).1.length = 1 :=
    runWeeks_fst_length _ _ _ 1 0 none _
  have hmem : (simulate
      ⟨100, 10, 1, 1, 1000, 10, 25, 1, 20, 1, 1/10, 1/2, 1/20, 95, 100, 99,
         ⟨831/100, 2016/1000000, [⟨0, 100, 1⟩]⟩⟩
      (fun i => i == 0)
      (fun _ => ⟨0, Mode.balanced, 1/2, 1/3, 0, 0, 99, 0, 0⟩) 1).1.getD 0 default
      ∈ (simulate
        ⟨100, 10, 1, 1, 1000, 10, 25, 1, 20, 1, 1/10, 1/2, 1/20, 95, 100, 99,
           ⟨831/100, 2016/1000000, [⟨0, 100, 1⟩]⟩⟩
        (fun i => i == 0)
        (fun _ => ⟨0, Mode.balanced, 1/2, 1/3, 0, 0, 99, 0, 0⟩) 1).1 := by
    rw [List.getD_eq_getElem _ _ (by rw [hlen]; omega)]
    exact List.getElem_mem _
  exact cushion_gas_constant
    ⟨100, 10, 1, 1, 1000, 10, 25, 1, 20, 1, 1/10, 1/2, 1/20, 95, 100, 99,
       ⟨831/100, 2016/1000000, [⟨0, 100, 1⟩]⟩⟩
    (fun i => i == 0)
    (fun _ => ⟨0, Mode.balanced, 1/2, 1/3, 0, 0, 99, 0, 0⟩) 1 _ hmem

/-! ### Claim C1: capacity invariant for working gas -/

/-- C1.  For every weekly record produced by the simulation loop,
`0 ≤ working_gas_kg ≤ working_capacity_kg`, where the capacity is the
per-facility constant computed once before the loop (non-negative by
construction in `_compute_facility_capacity_kg`, as is the sampled
static leak). -/
theorem working_gas_capacity_invariant (P : FacilityParams) (act : ℕ → Bool)
    (draws : ℕ → WeekDraws) (n_weeks : ℕ)
    (hcap : 0 ≤ P.working_capacity_kg) (hleak : 0 ≤ P.static_leak_per_week) :
    ∀ r ∈ (simulate P act draws n_weeks).1,
      0 ≤ r.working_gas_kg ∧ r.working_gas_kg ≤ P.working_capacity_kg := by
  intro r hr
  have h05 : (0.5 : ℚ) = 1 / 2 := by norm_num
  refine runWeeks_working P act draws hcap hleak n_weeks 0 none (initState P) ?_ ?_ r hr
  · show 0 ≤ P.working_capacity_kg * 0.5
    rw [h05]
    linarith
  · show P.working_capacity_kg * 0.5 ≤ P.working_capacity_kg
    rw [h05]
    linarith

/-- Witness for C1: the first record of a concrete two-week run (one
active, one inactive week) of a small facility satisfies the capacity
invariant. -/
theorem working_gas_capacity_invariant_witness :
    0 ≤ ((simulate
          ⟨100, 10, 1, 1, 1000, 10, 25, 1, 20, 1, 1/10, 1/2, 1/20, 95, 100, 99,
             ⟨831/100, 2016/1000000, [⟨0, 100, 1⟩]⟩⟩
          (fun i => i == 0)
          (fun _ => ⟨0, Mode.balanced, 1/2, 1/3, 0, 0, 99, 0, 0⟩) 2).1.getD 0
        default).working_gas_kg
      ∧ ((simulate
            ⟨100, 10, 1, 1, 1000, 10, 25, 1, 20, 1, 1/10, 1/2, 1/20, 95, 100, 99,
               ⟨831/100, 2016/1000000, [⟨0, 100, 1⟩]⟩⟩
            (fun i => i == 0)
            (fun _ => ⟨0, Mode.balanced, 1/2, 1/3, 0, 0, 99, 0, 0⟩) 2).1.getD 0
          default).working_gas_kg ≤ (100 : ℚ) := by
  have hlen : (simulate
      ⟨100, 10, 1, 1, 1000, 10, 25, 1, 20, 1, 1/10, 1/2, 1/20, 95, 100, 99,
         ⟨831/100, 2016/1000000, [⟨0, 100, 1⟩]⟩⟩
      (fun i => i == 0)
      (fun _ => ⟨0, Mode.balanced, 1/2, 1/3, 0, 0, 99, 0, 0⟩) 2).1.length = 2 :=
    runWeeks_fst_length _ _ _ 2 0 none _
  have hmem : (simulate
      ⟨100, 10, 1, 1, 1000, 10, 25, 1, 20, 1, 1/10, 1/2, 1/20, 95, 100, 99,
         ⟨831/100, 2016/1000000, [⟨0, 100, 1⟩]⟩⟩
      (fun i => i == 0)
      (fun _ => ⟨0, Mode.balanced, 1/2, 1/3, 0, 0, 99, 0, 0⟩) 2).1.getD 0 default
      ∈ (simulate
        ⟨100, 10, 1, 1, 1000, 10, 25, 1, 20, 1, 1/10, 1/2, 1/20, 95, 100, 99,
           ⟨831/100, 2016/1000000, [⟨0, 100, 1⟩]⟩⟩
        (fun i => i == 0)
        (fun _ => ⟨0, Mode.balanced, 1/2, 1/3, 0, 0, 99, 0, 0⟩) 2).1 := by
    rw [List.getD_eq_getElem _ _ (by rw [hlen]; omega)]
    exact List.getElem_mem _
  exact working_gas_capacity_invariant
    ⟨100, 10, 1, 1, 1000, 10, 25, 1, 20, 1, 1/10, 1/2, 1/20, 95, 100, 99,
       ⟨831/100, 2016/1000000, [⟨0, 100, 1⟩]⟩⟩
    (fun i => i == 0)
    (fun _ => ⟨0, Mode.balanced, 1/2, 1/3, 0, 0, 99, 0, 0⟩) 2
    (by norm_num) (by norm_num) _ hmem

/-! ### Claim C9: one activation schedule shared by all facilities -/

lemma simulate_facility_timeseries_fst (P : FacilityParams) (act : ℕ → Bool)
    (draws : ℕ → WeekDraws) (n_weeks : ℕ) :
    (simulate_facility_timeseries P act draws n_weeks).1
      = (simulate P act draws n_weeks).1 := rfl

/-- C9.  The activation schedule is built once per run
(`assign_active_cycles_per_year` is called once in
`generate_uhs_dataset`, before the facility loop) and every facility is
simulated against that same schedule.  Consequently, for any two
facilities of the same run and any week index, the week's activity flag
is the same in both facilities' time-series (it equals
`isActiveWeek sched yearOf k`, independent of the facility's parameters
and draws). -/
theorem activation_schedule_shared_across_facilities
    (facilities : List FacilityParams) (sched : List YearSchedule) (yearOf : ℕ → ℤ)
    (drawsFor : ℕ → ℕ → WeekDraws) (n_weeks : ℕ) (i j k : ℕ)
    (hi : i < facilities.length) (hj : j < facilities.length) (hk : k < n_weeks) :
    (((generate_uhs_dataset facilities sched yearOf drawsFor n_weeks).getD i
          default).1.getD k default).is_cycle_active
      = (((generate_uhs_dataset facilities sched yearOf drawsFor n_weeks).getD j
            default).1.getD k default).is_cycle_active := by
  suffices h : ∀ m, m < facilities.length →
      (((generate_uhs_dataset facilities sched yearOf drawsFor n_weeks).getD m
          default).1.getD k default).is_cycle_active = isActiveWeek sched yearOf k by
    rw [h i hi, h j hj]
  intro m hm
  have hlen : (generate_uhs_dataset facilities sched yearOf drawsFor n_weeks).length
      = facilities.length := by
    simp [generate_uhs_dataset]
  have hm2 : m < (generate_uhs_dataset facilities sched yearOf drawsFor n_weeks).length := by
    rw [hlen]; exact hm
  rw [List.getD_eq_getElem _ _ hm2]
  have hentry : (generate_uhs_dataset facilities sched yearOf drawsFor n_weeks)[m]
      = simulate_facility_timeseries facilities[m] (isActiveWeek sched yearOf)
          (drawsFor m) n_weeks := by
    simp [generate_uhs_dataset]
  rw [hentry, simulate_facility_timeseries_fst]
  have := runWeeks_active_at facilities[m] (isActiveWeek sched yearOf) (drawsFor m)
    n_weeks 0 none (initState facilities[m]) k hk
  simpa using this

/-- Witness for C9: two distinct facilities, one-week run, a schedule
activating week 0. -/
theorem activation_schedule_shared_across_facilities_witness :
    (((generate_uhs_dataset
          [⟨100, 10, 1, 1, 1000, 10, 25, 1, 20, 1, 1/10, 1/2, 1/20, 95, 100, 99,
              ⟨831/100, 2016/1000000, [⟨0, 100, 1⟩]⟩⟩,
           ⟨200, 20, 0, 2, 1500, 12, 30, 2, 25, 1, 1/10, 1/2, 1/20, 95, 100, 99,
              ⟨831/100, 2016/1000000, [⟨0, 100, 1⟩]⟩⟩]
          [⟨2020, [0], 52, [0]⟩] (fun _ => 2020)
          (fun _ _ => ⟨0, Mode.balanced, 1/2, 1/3, 0, 0, 99, 0, 0⟩) 1).getD 0
        default).1.getD 0 default).is_cycle_active
      = (((generate_uhs_dataset
            [⟨100, 10, 1, 1, 1000, 10, 25, 1, 20, 1, 1/10, 1/2, 1/20, 95, 100, 99,
                ⟨831/100, 2016/1000000, [⟨0, 100, 1⟩]⟩⟩,
             ⟨200, 20, 0, 2, 1500, 12, 30, 2, 25, 1, 1/10, 1/2, 1/20, 95, 100, 99,
                ⟨831/100, 2016/1000000, [⟨0, 100, 1⟩]⟩⟩]
            [⟨2020, [0], 52, [0]⟩] (fun _ => 2020)
            (fun _ _ => ⟨0, Mode.balanced, 1/2, 1/3, 0, 0, 99, 0, 0⟩) 1).getD 1
          default).1.getD 0 default).is_cycle_active :=
  activation_schedule_shared_across_facilities
    [⟨100, 10, 1, 1, 1000, 10, 25, 1, 20, 1, 1/10, 1/2, 1/20, 95, 100, 99,
        ⟨831/100, 2016/1000000, [⟨0, 100, 1⟩]⟩⟩,
     ⟨200, 20, 0, 2, 1500, 12, 30, 2, 25, 1, 1/10, 1/2, 1/20, 95, 100, 99,
        ⟨831/100, 2016/1000000, [⟨0, 100, 1⟩]⟩⟩]
    [⟨2020, [0], 52, [0]⟩] (fun _ => 2020)
    (fun _ _ => ⟨0, Mode.balanced, 1/2, 1/3, 0, 0, 99, 0, 0⟩) 1 0 1 0
    (by norm_num) (by norm_num) (by norm_num)

/-! ### Claim C4: pressure/mass round trip -/

lemma zLookup_mem : ∀ (segs : List Seg) (p z : ℚ), zLookup segs p = some z →
    ∃ s ∈ segs, s.Z = z := by
  intro segs
  induction segs with
  | nil => intro p z h; simp [zLookup] at h
  | cons a l ih =>
      intro p z h
      by_cases hc : a.pressure_min_mpa ≤ p ∧ p < a.pressure_max_mpa
      · rw [zLookup, if_pos hc] at h
        injection h with h
        exact ⟨a, List.mem_cons_self a l, h⟩
      · rw [zLookup, if_neg hc] at h
        obtain ⟨s, hs, hz⟩ := ih p z h
        exact ⟨s, List.mem_cons_of_mem a hs, hz⟩

lemma get_compressibility_z_mem (th : ThermoConfig) (p : ℚ)
    (hne : th.compressibility_segments ≠ []) :
    ∃ s ∈ th.compressibility_segments, get_compressibility_z th p = s.Z := by
  unfold get_compressibility_z
  cases hz : zLookup th.compressibility_segments p with
  | some z =>
      obtain ⟨s, hs, hsz⟩ := zLookup_mem _ _ _ hz
      exact ⟨s, hs, hsz.symm⟩
  | none =>
      unfold lastZ
      cases hl : th.compressibility_segments.getLast? with
      | some s => exact ⟨s, List.mem_of_mem_getLast? hl, rfl⟩
      | none => exact absurd (List.getLast?_eq_none_iff.mp hl) hne

lemma get_compressibility_z_bounds (th : ThermoConfig) (zlo zhi p : ℚ)
    (hne : th.compressibility_segments ≠ [])
    (hz : ∀ s ∈ th.compressibility_segments, zlo ≤ s.Z ∧ s.Z ≤ zhi) :
    zlo ≤ get_compressibility_z th p ∧ get_compressibility_z th p ≤ zhi := by
  obtain ⟨s, hs, he⟩ := get_compressibility_z_mem th p hne
  rw [he]
  exact hz s hs

/-- C4.  Round-trip law with an explicit tolerance: when every
compressibility segment's Z lies in `[zlo, zhi]` (with `zlo > 0`), the
constants are positive, the temperature is above absolute zero, the
volume is in a physically reasonable range (`≥ 1e-9 m³`) and the
pressure is positive, then
`pressure_from_mass (mass_from_pvt P T V th) T V th` differs from `P` by
at most `(zhi − zlo)·P / zlo` — the spread of the compressibility table,
which bounds the error of the 5-iteration fixed-point solve (every
iterate, and the true pressure, lies in the band `[zlo·c, zhi·c]` around
the iteration constant `c`). -/
theorem pressure_mass_roundtrip_bound (th : ThermoConfig) (zlo zhi Pq Tc V : ℚ)
    (hne : th.compressibility_segments ≠ [])
    (hz : ∀ s ∈ th.compressibility_segments, zlo ≤ s.Z ∧ s.Z ≤ zhi)
    (hzlo : 0 < zlo) (hR : 0 < th.gas_constant_R_J_per_molK)
    (hM : 0 < th.molar_mass_H2_kg_per_mol) (hT : 0 < Tc + 273.15)
    (hV : (1e-9 : ℚ) ≤ V) (hP : 0 < Pq) :
    |pressure_from_mass (mass_from_pvt Pq Tc V th) Tc V th - Pq|
      ≤ (zhi - zlo) * Pq / zlo := by
  have hV0 : (0 : ℚ) < V := lt_of_lt_of_le (by norm_num) hV
  set R := th.gas_constant_R_J_per_molK with hRdef
  set M := th.molar_mass_H2_kg_per_mol with hMdef
  set Tk := Tc + 273.15 with hTkdef
  set ZP := get_compressibility_z th Pq with hZPdef
  have hZPb := get_compressibility_z_bounds th zlo zhi Pq hne hz
  have hZP0 : 0 < ZP := lt_of_lt_of_le hzlo hZPb.1
  have hlolhi : zlo ≤ zhi := le_trans hZPb.1 hZPb.2
  have hZPne : ZP ≠ 0 := ne_of_gt hZP0
  have hRne : R ≠ 0 := ne_of_gt hR
  have hMne : M ≠ 0 := ne_of_gt hM
  have hTkne : Tk ≠ 0 := ne_of_gt hT
  have hVne : V ≠ 0 := ne_of_gt hV0
  -- the computed mass
  have hm : mass_from_pvt Pq Tc V th = Pq * 1e6 * V / (ZP * R * Tk) * M := by
    unfold mass_from_pvt
    rw [if_neg (not_le.mpr hV0)]
    exact max_eq_left (by positivity)
  set m := mass_from_pvt Pq Tc V th with hmdef
  have hm0 : 0 < m := by rw [hm]; positivity
  -- the mole count recomputed inside pressure_from_mass
  have hn : m / M = Pq * 1e6 * V / (ZP * R * Tk) := by
    rw [hm]
    field_simp
    ring
  -- the iteration constant
  set c := m / M * R * Tk / V with hcdef
  have hc : c = Pq * 1e6 / ZP := by
    rw [hcdef, hn]
    field_simp
    ring
  have hc0 : 0 < c := by rw [hc]; positivity
  have hstep : ∀ p, pfmUpdate th (m / M) Tk V p
      = get_compressibility_z th (p / 1e6) * c := by
    intro p
    unfold pfmUpdate
    rw [max_eq_left hV]
    rw [hcdef]
    ring
  have hband : ∀ p, zlo * c ≤ pfmUpdate th (m / M) Tk V p
      ∧ pfmUpdate th (m / M) Tk V p ≤ zhi * c := by
    intro p
    rw [hstep p]
    have hb := get_compressibility_z_bounds th zlo zhi (p / 1e6) hne hz
    exact ⟨mul_le_mul_of_nonneg_right hb.1 (le_of_lt hc0),
           mul_le_mul_of_nonneg_right hb.2 (le_of_lt hc0)⟩
  -- unfold the round trip
  have hguard : ¬(V ≤ 0 ∨ m ≤ 0) := by
    push_neg
    exact ⟨hV0, hm0⟩
  have hrt : pressure_from_mass m Tc V th
      = max (pfmUpdate th (m / M) Tk V
          (pfmUpdate th (m / M) Tk V
            (pfmUpdate th (m / M) Tk V
              (pfmUpdate th (m / M) Tk V
                (pfmUpdate th (m / M) Tk V 1e7)))) / 1e6) 0 := by
    unfold pressure_from_mass
    rw [if_neg hguard]
  set p5 := pfmUpdate th (m / M) Tk V
      (pfmUpdate th (m / M) Tk V
        (pfmUpdate th (m / M) Tk V
          (pfmUpdate th (m / M) Tk V
            (pfmUpdate th (m / M) Tk V 1e7)))) with hp5def
  have hp5 : zlo * c ≤ p5 ∧ p5 ≤ zhi * c := hband _
  have hp5pos : 0 < p5 := lt_of_lt_of_le (by positivity) hp5.1
  have hrt2 : pressure_from_mass m Tc V th = p5 / 1e6 := by
    rw [hrt]
    exact max_eq_left (by positivity)
  -- the true pressure sits in the same band
  have hPc : Pq * 1e6 = ZP * c := by
    rw [hc]
    field_simp
  have hPb1 : zlo * c ≤ Pq * 1e6 := by
    rw [hPc]
    exact mul_le_mul_of_nonneg_right hZPb.1 (le_of_lt hc0)
  have hPb2 : Pq * 1e6 ≤ zhi * c := by
    rw [hPc]
    exact mul_le_mul_of_nonneg_right hZPb.2 (le_of_lt hc0)
  -- the tolerance comparison
  have hX : (zhi - zlo) * c / 1e6 ≤ (zhi - zlo) * Pq / zlo := by
    have h1 : c / 1e6 = Pq / ZP := by
      rw [hc]
      field_simp
      ring
    have h2 : Pq / ZP ≤ Pq / zlo :=
      div_le_div_of_nonneg_left (le_of_lt hP) hzlo hZPb.1
    calc (zhi - zlo) * c / 1e6 = (zhi - zlo) * (c / 1e6) := by ring
      _ = (zhi - zlo) * (Pq / ZP) := by rw [h1]
      _ ≤ (zhi - zlo) * (Pq / zlo) := mul_le_mul_of_nonneg_left h2 (by linarith)
      _ = (zhi - zlo) * Pq / zlo := by ring
  rw [hrt2, abs_le]
  constructor
  · nlinarith [hp5.1, hPb2, hX]
  · nlinarith [hp5.2, hPb1, hX]

/-- Witness for C4: with the trivial table (Z ≡ 1), R = M = 1, unit
volume and `Tk = 1000`, the round trip at 10 MPa is exact. -/
theorem pressure_mass_roundtrip_bound_witness :
    |pressure_from_mass (mass_from_pvt 10 (72685/100) 1 thUnit) (72685/100) 1 thUnit
        - (10 : ℚ)| ≤ (1 - 1) * 10 / 1 :=
  pressure_mass_roundtrip_bound thUnit 1 1 10 (72685/100) 1
    (by simp [thUnit]) (by intro s hs; simp [thUnit] at hs; simp [hs])
    (by norm_num) (by norm_num [thUnit]) (by norm_num [thUnit]) (by norm_num)
    (by norm_num) (by norm_num)

/-! ### Claim C6: schedule lemmas -/

/-- When a year's drawn cycle count saturates (`n_cycles =
min(drawn, |indices|) = |indices|`), the without-replacement choice is
all of that year's indices. -/
lemma chosen_all (indices chosen : List ℕ) (drawn : ℕ)
    (hnodupI : indices.Nodup) (hlt : ∀ a ∈ indices, a < 52)
    (hnodupC : chosen.Nodup) (hsub : ∀ a ∈ chosen, a ∈ indices)
    (hlen : chosen.length = min drawn indices.length) (hdrawn : drawn = 52) :
    ∀ x ∈ indices, x ∈ chosen := by
  have hlenI : indices.length ≤ 52 := by
    have hsubF : indices.toFinset ⊆ Finset.range 52 := by
      intro a ha
      rw [List.mem_toFinset] at ha
      exact Finset.mem_range.mpr (hlt a ha)
    have := Finset.card_le_card hsubF
    rw [List.toFinset_card_of_nodup hnodupI, Finset.card_range] at this
    exact this
  have hlen2 : chosen.length = indices.length := by
    rw [hlen, hdrawn]
    omega
  have hsubF : chosen.toFinset ⊆ indices.toFinset := by
    intro a ha
    rw [List.mem_toFinset] at ha ⊢
    exact hsub a ha
  have hcards : indices.toFinset.card ≤ chosen.toFinset.card := by
    rw [List.toFinset_card_of_nodup hnodupI, List.toFinset_card_of_nodup hnodupC, hlen2]
  have heq := Finset.eq_of_subset_of_card_le hsubF hcards
  intro x hx
  have : x ∈ chosen.toFinset := by
    rw [heq, List.mem_toFinset]
    exact hx
  rw [List.mem_toFinset] at this
  exact this

/-- Under the C6 configuration (`min_cycles_per_year =
max_cycles_per_year = 52` over a 52-week horizon), every week is an
active cycle week. -/
lemma isActiveWeek_all (sched : List YearSchedule) (yearOf : ℕ → ℤ)
    (hcov : ∀ idx, idx < 52 → ∃ ys ∈ sched,
        sched.find? (fun s => s.year == yearOf idx) = some ys ∧ idx ∈ ys.indices)
    (hctr : ∀ ys ∈ sched, ys.indices.Nodup ∧ (∀ a ∈ ys.indices, a < 52)
        ∧ ys.chosen.Nodup ∧ (∀ a ∈ ys.chosen, a ∈ ys.indices)
        ∧ ys.chosen.length = min ys.drawn_count ys.indices.length
        ∧ ys.drawn_count = 52) :
    ∀ idx, idx < 52 → isActiveWeek sched yearOf idx = true := by
  intro idx hidx
  obtain ⟨ys, hysmem, hfind, hidxmem⟩ := hcov idx hidx
  obtain ⟨h1, h2, h3, h4, h5, h6⟩ := hctr ys hysmem
  unfold isActiveWeek
  rw [hfind]
  exact decide_eq_true (chosen_all ys.indices ys.chosen ys.drawn_count
    h1 h2 h3 h4 h5 h6 idx hidxmem)

/-! ### Claim C6: the all-active run -/

lemma runWeeks_allact (P : FacilityParams) (act : ℕ → Bool) (draws : ℕ → WeekDraws) :
    ∀ (count start : ℕ) (prev : Option WeeklyRecord) (s : SimState),
      (∀ j, j < count → act (start + j) = true) →
      (runWeeks P act draws start count prev s).1.length = count
      ∧ (runWeeks P act draws start count prev s).2.1.length = count
      ∧ (∀ r ∈ (runWeeks P act draws start count prev s).1,
          s.cycle_index < r.cycle_index ∧ r.cycle_index ≤ s.cycle_index + count)
      ∧ (∀ j, j < count →
          ((runWeeks P act draws start count prev s).2.1.getD j default).cycle_index
              = s.cycle_index + j + 1
          ∧ ((runWeeks P act draws start count prev s).2.1.getD j
                default).avg_pressure_mpa = none
          ∧ cycleWeeks (runWeeks P act draws start count prev s).1
                (s.cycle_index + j + 1)
              = [(runWeeks P act draws start count prev s).1.getD j default]) := by
  intro count
  induction count with
  | zero =>
      intro start prev s _
      refine ⟨rfl, rfl, ?_, ?_⟩
      · intro r hr; simp [runWeeks] at hr
      · intro j hj; omega
  | succ k ih =>
      intro start prev s hact
      have ha : act start = true := by simpa using hact 0 (by omega)
      have IH := ih (start + 1)
        (some (stepWeek P (act start) (draws start) start prev s).2.1)
        (stepWeek P (act start) (draws start) start prev s).1
        (fun j hj => by
          rw [show start + 1 + j = start + (j + 1) by omega]
          exact hact (j + 1) (by omega))
      rw [ha] at IH
      obtain ⟨IH1, IH2, IH3, IH4⟩ := IH
      have hstate_ci :
          (stepWeek P true (draws start) start prev s).1.cycle_index
            = s.cycle_index + 1 := rfl
      have hrec_ci :
          (stepWeek P true (draws start) start prev s).2.1.cycle_index
            = s.cycle_index + 1 := rfl
      obtain ⟨cr, hcr⟩ :
          ∃ cr, (stepWeek P true (draws start) start prev s).2.2 = some cr := ⟨_, rfl⟩
      have hcr_ci : cr.cycle_index = s.cycle_index + 1 := by
        have h : ((stepWeek P true (draws start) start prev s).2.2).map
            CycleRecord.cycle_index = some (s.cycle_index + 1) := rfl
        rw [hcr] at h
        simpa using h
      have hcr_avg : cr.avg_pressure_mpa = none := by
        have h : ((stepWeek P true (draws start) start prev s).2.2).map
            CycleRecord.avg_pressure_mpa = some none := rfl
        rw [hcr] at h
        simpa using h
      simp only [runWeeks, ha, hcr, Option.toList_some, List.singleton_append]
      refine ⟨by simp [IH1], by simp [IH2], ?_, ?_⟩
      · intro r hr
        rcases List.mem_cons.mp hr with hr | hr
        · rw [hr, hrec_ci]
          omega
        · have h := IH3 r hr
          rw [hstate_ci] at h
          omega
      · intro j hj
        match j with
        | 0 =>
            refine ⟨by simp [hcr_ci], by simp [hcr_avg], ?_⟩
            simp only [cycleWeeks, List.filter_cons, List.getD_cons_zero]
            have hpred : decide
                (0 < (stepWeek P true (draws start) start prev s).2.1.cycle_index
                  ∧ (stepWeek P true (draws start) start prev s).2.1.cycle_index
                      = s.cycle_index + 0 + 1) = true := by
              rw [hrec_ci]
              simp
            rw [hpred]
            have htail : (runWeeks P act draws (start + 1) k
                  (some (stepWeek P true (draws start) start prev s).2.1)
                  (stepWeek P true (draws start) start prev s).1).1.filter
                (fun r => decide (0 < r.cycle_index
                    ∧ r.cycle_index = s.cycle_index + 0 + 1)) = [] := by
              apply List.filter_eq_nil_iff.mpr
              intro r hr
              have h := IH3 r hr
              rw [hstate_ci] at h
              simp only [decide_eq_true_eq, not_and]
              intro _
              omega
            rw [if_pos rfl, htail]
        | j + 1 =>
            obtain ⟨A, B, C⟩ := IH4 j (by omega)
            rw [hstate_ci] at A
            refine ⟨?_, ?_, ?_⟩
            · simp only [List.getD_cons_succ]
              rw [A]
              omega
            · simp only [List.getD_cons_succ]
              exact B
            · simp only [cycleWeeks, List.filter_cons, List.getD_cons_succ]
              have hpred : decide
                  (0 < (stepWeek P true (draws start) start prev s).2.1.cycle_index
                    ∧ (stepWeek P true (draws start) start prev s).2.1.cycle_index
                        = s.cycle_index + (j + 1) + 1) = false := by
                rw [hrec_ci]
                simp only [decide_eq_false_iff_not, not_and]
                intro _
                omega
              rw [hpred]
              simp only [Bool.false_eq_true, if_false]
              simp only [cycleWeeks] at C
              rw [hstate_ci] at C
              rw [show s.cycle_index + (j + 1) + 1 = s.cycle_index + 1 + j + 1 by omega]
              exact C

lemma fillAvgPressure_length (ts : List WeeklyRecord) (cycles : List CycleRecord) :
    (fillAvgPressure ts cycles).length = cycles.length := by
  unfold fillAvgPressure
  split_ifs <;> simp

/-- C6.  With one facility, one year (52 weeks) and
`min_cycles_per_year = max_cycles_per_year = 52` — expressed by the
schedule-contract hypotheses: every week index below 52 is grouped into
a schedule year, year groups are distinct indices below 52, the drawn
count is forced to 52, and the without-replacement choice has full size
`min(52, |indices|)` — the generated time-series has exactly 52 rows,
every row's `cycle_index` lies in `1..52` (none is 0), and the cycle
summary has exactly 52 rows whose `avg_pressure_mpa` is exactly the
matching single week's recorded pressure. -/
theorem end_to_end_52_week_scenario (P : FacilityParams) (draws : ℕ → WeekDraws)
    (sched : List YearSchedule) (yearOf : ℕ → ℤ)
    (hcov : ∀ idx, idx < 52 → ∃ ys ∈ sched,
        sched.find? (fun s => s.year == yearOf idx) = some ys ∧ idx ∈ ys.indices)
    (hctr : ∀ ys ∈ sched, ys.indices.Nodup ∧ (∀ a ∈ ys.indices, a < 52)
        ∧ ys.chosen.Nodup ∧ (∀ a ∈ ys.chosen, a ∈ ys.indices)
        ∧ ys.chosen.length = min ys.drawn_count ys.indices.length
        ∧ ys.drawn_count = 52) :
    (simulate_facility_timeseries P (isActiveWeek sched yearOf) draws 52).1.length = 52
    ∧ (∀ r ∈ (simulate_facility_timeseries P (isActiveWeek sched yearOf) draws 52).1,
        1 ≤ r.cycle_index ∧ r.cycle_index ≤ 52 ∧ r.cycle_index ≠ 0)
    ∧ (simulate_facility_timeseries P (isActiveWeek sched yearOf) draws 52).2.length = 52
    ∧ (∀ j, j < 52 →
        ((simulate_facility_timeseries P (isActiveWeek sched yearOf) draws 52).2.getD j
            default).avg_pressure_mpa
          = some (((simulate_facility_timeseries P
              (isActiveWeek sched yearOf) draws 52).1.getD j default).pressure_mpa)) := by
  have hall := isActiveWeek_all sched yearOf hcov hctr
  have H := runWeeks_allact P (isActiveWeek sched yearOf) draws 52 0 none (initState P)
    (fun j hj => by simpa using hall j (by omega))
  have hci : (initState P).cycle_index = 0 := rfl
  rw [hci] at H
  obtain ⟨H1, H2, H3, H4⟩ := H
  set ts := (runWeeks P (isActiveWeek sched yearOf) draws 0 52 none (initState P)).1
    with hts
  set cs := (runWeeks P (isActiveWeek sched yearOf) draws 0 52 none (initState P)).2.1
    with hcs
  have e1 : (simulate_facility_timeseries P (isActiveWeek sched yearOf) draws 52).1
      = ts := rfl
  have e2 : (simulate_facility_timeseries P (isActiveWeek sched yearOf) draws 52).2
      = fillAvgPressure ts cs := rfl
  have htsne : ts ≠ [] := by
    intro h
    rw [h] at H1
    simp at H1
  have hcsne : cs.isEmpty = false := by
    apply List.isEmpty_eq_false.mpr
    intro h
    rw [h] at H2
    simp at H2
  have hfilterne : (ts.filter fun r => decide (0 < r.cycle_index)).isEmpty = false := by
    apply List.isEmpty_eq_false.mpr
    obtain ⟨r, hr⟩ := List.exists_mem_of_ne_nil ts htsne
    apply List.ne_nil_of_mem (a := r)
    apply List.mem_filter.mpr
    refine ⟨hr, ?_⟩
    have := (H3 r hr).1
    simpa using this
  have hfill : fillAvgPressure ts cs = cs.map fun c =>
      let ws := cycleWeeks ts c.cycle_index
      { c with avg_pressure_mpa :=
          if ws.isEmpty then none
          else some ((ws.map WeeklyRecord.pressure_mpa).sum / (ws.length : ℚ)) } := by
    unfold fillAvgPressure
    rw [if_neg (by simp [hcsne]), if_neg (by simp [hfilterne])]
  refine ⟨by rw [e1]; exact H1, ?_, ?_, ?_⟩
  · intro r hr
    rw [e1] at hr
    have h := H3 r hr
    omega
  · rw [e2, fillAvgPressure_length]
    exact H2
  · intro j hj
    rw [e2, e1, hfill]
    have hjcs : j < cs.length := by rw [H2]; exact hj
    have hjmap : j < (cs.map fun c =>
        let ws := cycleWeeks ts c.cycle_index
        { c with avg_pressure_mpa :=
            if ws.isEmpty then none
            else some ((ws.map WeeklyRecord.pressure_mpa).sum / (ws.length : ℚ)) }).length := by
      simpa using hjcs
    rw [List.getD_eq_getElem _ _ hjmap, List.getElem_map]
    obtain ⟨A, _, C⟩ := H4 j hj
    have hcj : cs[j].cycle_index = j + 1 := by
      rw [← List.getD_eq_getElem cs default hjcs]
      omega
    have hC : cycleWeeks ts (j + 1) = [ts.getD j default] := by
      rw [show j + 1 = 0 + j + 1 by omega]
      exact C
    simp only [hcj, hC]
    simp

/-- A small demonstration facility for the C6 witness. -/
def Pdemo : FacilityParams :=
  ⟨100, 10, 1, 1, 1000, 10, 25, 1, 20, 1, 1/10, 1/2, 1/20, 95, 100, 99,
     ⟨831/100, 2016/1000000, [⟨0, 100, 1⟩]⟩⟩

/-- Constant draw stream for the C6 witness. -/
def drawsDemo : ℕ → WeekDraws := fun _ => ⟨0, Mode.balanced, 1/2, 1/3, 0, 0, 99, 0, 0⟩

/-- One-year schedule for the C6 witness: all 52 weeks of year 2020
grouped together, drawn count 52, all chosen. -/
def schedDemo : List YearSchedule := [⟨2020, List.range 52, 52, List.range 52⟩]

/-- Year map for the C6 witness. -/
def yearDemo : ℕ → ℤ := fun _ => 2020

/-- Witness for C6: the concrete 52-week all-active scenario. -/
theorem end_to_end_52_week_scenario_witness :
    (simulate_facility_timeseries Pdemo (isActiveWeek schedDemo yearDemo)
        drawsDemo 52).1.length = 52
      ∧ (∀ r ∈ (simulate_facility_timeseries Pdemo (isActiveWeek schedDemo yearDemo)
            drawsDemo 52).1,
          1 ≤ r.cycle_index ∧ r.cycle_index ≤ 52 ∧ r.cycle_index ≠ 0)
      ∧ (simulate_facility_timeseries Pdemo (isActiveWeek schedDemo yearDemo)
            drawsDemo 52).2.length = 52
      ∧ (∀ j, j < 52 →
          ((simulate_facility_timeseries Pdemo (isActiveWeek schedDemo yearDemo)
              drawsDemo 52).2.getD j default).avg_pressure_mpa
            = some (((simulate_facility_timeseries Pdemo (isActiveWeek schedDemo yearDemo)
                drawsDemo 52).1.getD j default).pressure_mpa)) :=
  end_to_end_52_week_scenario Pdemo drawsDemo schedDemo yearDemo
    (by decide) (by decide)

end SUHS
